import Mathlib

set_option maxHeartbeats 1000000

/- Shallow embedding of src/app.py (Crawler PDF V2.0).

   Modelling conventions:
   - Python strings are lists of characters (Str); str.lower is mapped
     characterwise through Char.toLower (the inputs of interest are ASCII).
   - Python float expressions int((a / b) * c) on nonnegative ints are
     modelled by exact truncated rational division a * c / b on Nat; for
     the small numerators and denominators that occur in app.py the two
     agree (the correctly rounded double product never crosses an integer
     boundary at these sizes).
   - The fuzzywuzzy library function fuzz.partial_ratio is an external
     collaborator, not repository code: it is threaded through the
     matcher as an explicit function parameter pr. -/

abbrev Str := List Char

/-- Python str.lower applied characterwise (app.py uses .lower() throughout). -/
def lowerStr (s : Str) : Str := s.map Char.toLower

/-- Helper for substring search: pat is a prefix of s. -/
def prefixOf : Str → Str → Bool
  | [], _ => true
  | _ :: _, [] => false
  | a :: ps, b :: ss => a == b && prefixOf ps ss

/-- Python substring membership test, the in operator on str
    (app.py lines 91 and 108). -/
def containsSub (pat : Str) : Str → Bool
  | [] => prefixOf pat []
  | c :: rest => prefixOf pat (c :: rest) || containsSub pat rest

/-- Python str.find on lowered strings (app.py line 147): index of the first
    occurrence of pat, or none when absent (Python returns -1). -/
def findSub (pat : Str) : Str → Option Nat
  | [] => if prefixOf pat [] then some 0 else none
  | c :: rest =>
    if prefixOf pat (c :: rest) then some 0
    else (findSub pat rest).map (fun n => n + 1)

/-- A regex word character for the Unicode-aware Python re class
    backslash-w: ASCII alphanumerics, the underscore, and the non-ASCII
    characters occurring in the inputs of interest, which are accented
    letters and hence word characters in Python. -/
def isWordChar (c : Char) : Bool := c.isAlphanum || c == '_' || 128 ≤ c.toNat

/-- Accumulator version of splitWords; acc holds the current run reversed. -/
def splitWordsAux : Str → Str → List Str
  | [], acc => if acc.isEmpty then [] else [acc.reverse]
  | c :: rest, acc =>
    if isWordChar c then splitWordsAux rest (c :: acc)
    else if acc.isEmpty then splitWordsAux rest []
    else acc.reverse :: splitWordsAux rest []

/-- Python re.findall of one-or-more word characters (app.py line 104):
    the maximal runs of word characters in s. -/
def splitWords (s : Str) : List Str := splitWordsAux s []

/-- Python str.strip: remove leading and trailing whitespace (app.py line 151). -/
def pyStrip (s : Str) : Str :=
  ((s.dropWhile Char.isWhitespace).reverse.dropWhile Char.isWhitespace).reverse

/-- Characters matched by the regex class of digits, dot and comma in the
    currency pattern of app.py line 35. -/
def isValueChar (c : Char) : Bool := c.isDigit || c == '.' || c == ','

/-- One attempted match of the currency regex of app.py line 35 at the head of
    the string, returning the captured group and the rest of the input.
    The pattern is the letter R, a dollar sign, optional whitespace, then a
    greedy nonempty run over digits, dot and comma; the trailing optional
    cents group always matches empty because the greedy class already
    contains dot and digits, so the capture is exactly the maximal run. -/
def matchValueAt : Str → Option (Str × Str)
  | 'R' :: '$' :: rest =>
    let afterWs := rest.dropWhile Char.isWhitespace
    let body := afterWs.takeWhile isValueChar
    if body.isEmpty then none else some (body, afterWs.drop body.length)
  | _ => none

/-- Consume exactly n digits from the head of the string. -/
def takeDigitsN : Nat → Str → Option (Str × Str)
  | 0, s => some ([], s)
  | _ + 1, [] => none
  | n + 1, c :: rest =>
    if c.isDigit then (takeDigitsN n rest).map (fun p => (c :: p.1, p.2)) else none

/-- Consume one optional literal character at the head of the string, as the
    greedy optional separators of the tax-identifier regex do; skipping a
    present separator can never help the rest of that pattern, so the greedy
    choice is the unique successful one. -/
def skipOptChar (c : Char) : Str → Str × Str
  | [] => ([], [])
  | d :: rest => if d == c then ([d], rest) else ([], d :: rest)

/-- One attempted match of the CNPJ tax-identifier regex of app.py line 36 at
    the head of the string: two digits, optional dot, three digits, optional
    dot, three digits, optional slash, four digits, optional hyphen, two
    digits.  Returns the whole matched text and the rest of the input. -/
def matchCnpjAt (s : Str) : Option (Str × Str) :=
  (takeDigitsN 2 s).bind fun p1 =>
  let q1 := skipOptChar '.' p1.2
  (takeDigitsN 3 q1.2).bind fun p2 =>
  let q2 := skipOptChar '.' p2.2
  (takeDigitsN 3 q2.2).bind fun p3 =>
  let q3 := skipOptChar '/' p3.2
  (takeDigitsN 4 q3.2).bind fun p4 =>
  let q4 := skipOptChar '-' p4.2
  (takeDigitsN 2 q4.2).map fun p5 =>
    (p1.1 ++ q1.1 ++ p2.1 ++ q2.1 ++ p3.1 ++ q3.1 ++ p4.1 ++ q4.1 ++ p5.1, p5.2)

/-- Python re.findall: scan left to right, at each position either take a
    match (non-overlapping, every match of the two patterns above consumes at
    least one character) or advance one character.  Fuel bounds the number of
    scan steps by the input length. -/
def findallAux (m : Str → Option (Str × Str)) : Nat → Str → List Str
  | 0, _ => []
  | fuel + 1, s =>
    match m s with
    | some (g, rest) => g :: findallAux m fuel rest
    | none =>
      match s with
      | [] => []
      | _ :: t => findallAux m fuel t

/-- Python re.findall over a whole string. -/
def findall (m : Str → Option (Str × Str)) (s : Str) : List Str :=
  findallAux m (s.length + 1) s

/-- All currency amounts found in s (re.findall of the pattern of line 35). -/
def findallValues (s : Str) : List Str := findall matchValueAt s

/-- All tax identifiers found in s (re.findall of the pattern of line 36). -/
def findallCnpjs (s : Str) : List Str := findall matchCnpjAt s

/-- Count of currency amounts in s, app.py line 48. -/
def countValues (s : Str) : Nat := (findallValues s).length

/-- Count of tax identifiers in s, app.py line 49. -/
def countCnpjs (s : Str) : Nat := (findallCnpjs s).length

/-- Document type labels returned by QGCAnalyzer.detect_document_type. -/
inductive DocType where
  | qgc
  | unknown
deriving DecidableEq, Repr

/-- The dictionary returned by QGCAnalyzer.detect_document_type
    (fields in the order of app.py lines 45 to 57). -/
structure DocAnalysis where
  type : DocType
  confidence : Nat
  values_found : Nat
  cnpjs_found : Nat
deriving DecidableEq, Repr

/-- The fixed indicator phrases of QGCAnalyzer, app.py lines 29 to 33. -/
def qgc_indicators : List Str :=
  ["quadro geral de credores".toList, "qgc".toList,
   "relação de credores".toList, "credores quirografários".toList,
   "credores trabalhistas".toList, "credores com garantia real".toList,
   "administrador judicial".toList]

/-- The number of distinct indicator phrases contained in the lowered text,
    app.py line 42. -/
def qgcScore (text : Str) : Nat :=
  (qgc_indicators.filter (fun ind => containsSub ind (lowerStr text))).length

/-- QGCAnalyzer.detect_document_type, app.py lines 38 to 57.  Note that the
    regex counts are computed over the original text and only in the branch
    with at least two indicators; the other branch returns literal zeros. -/
def detect_document_type (text : Str) : DocAnalysis :=
  if 2 ≤ qgcScore text then
    ⟨DocType.qgc, min 90 (qgcScore text * 30), countValues text, countCnpjs text⟩
  else
    ⟨DocType.unknown, 0, 0, 0⟩

/-- The fixed stop-word set AdvancedMatcher.common_words, app.py lines 79 to 83. -/
def common_words : List Str :=
  ["ltda".toList, "sa".toList, "cia".toList, "inc".toList, "corp".toList,
   "limited".toList, "tech".toList, "group".toList, "international".toList,
   "brasil".toList, "brazil".toList, "company".toList, "solutions".toList,
   "services".toList, "industria".toList, "comercio".toList, "global".toList,
   "nacional".toList]

/-- The significant words of a client name, app.py lines 104 and 105: the
    word tokens of the lowered name of length at least three that are not
    stop words. -/
def significantWords (client_name : Str) : List Str :=
  (splitWords (lowerStr client_name)).filter
    (fun w => decide (3 ≤ w.length) && !(common_words.contains w))

/-- The significant words found as substrings of the lowered text,
    app.py line 108. -/
def foundWords (client_name text : Str) : List Str :=
  (significantWords client_name).filter (fun w => containsSub w (lowerStr text))

/-- The match_type labels of AdvancedMatcher.advanced_search.  Each
    constructor denotes one of the Python label strings: Exata, the
    Palavras label carrying found and total counts, the Fuzzy label
    carrying the similarity, and the not-found label. -/
inductive MatchType where
  | exata
  | palavras (foundCount total : Nat)
  | fuzzy (sim : Nat)
  | naoEncontrado
deriving DecidableEq, Repr

/-- The extracted_data dictionary of app.py lines 161 to 164; the empty
    dictionary of the not-found branch is the value with two empty lists,
    since the pipeline reads it with .get and a default of an empty list. -/
structure ExtractedData where
  values : List Str
  cnpjs : List Str
deriving DecidableEq, Repr

/-- The result dictionary of AdvancedMatcher.advanced_search
    (fields in the order of app.py lines 95 to 101). -/
structure MatchResult where
  found : Bool
  confidence : Nat
  match_type : MatchType
  context : Str
  extracted_data : ExtractedData
deriving DecidableEq, Repr

/-- AdvancedMatcher extract context, app.py lines 145 to 152: find the
    first occurrence of the lowered term in the lowered text, slice a
    window of size characters around it in the original text (clamped to
    the string bounds by Nat subtraction and min), and strip it. -/
def extract_context (search_term text : Str) (size : Nat) : Str :=
  match findSub (lowerStr search_term) (lowerStr text) with
  | some idx =>
    let start := idx - size / 2
    let stop := min text.length (idx + search_term.length + size / 2)
    pyStrip ((text.drop start).take (stop - start))
  | none => []

/-- AdvancedMatcher extract client data, app.py lines 154 to 164: run both
    regexes over a 400-character context window and keep at most three
    currency values and two tax identifiers. -/
def extract_client_data (client_name text : Str) : ExtractedData :=
  ⟨(findallValues (extract_context client_name text 400)).take 3,
   (findallCnpjs (extract_context client_name text 400)).take 2⟩

/-- AdvancedMatcher.advanced_search, app.py lines 87 to 143.  pr is the
    external fuzzywuzzy partial-ratio scorer, passed explicitly.  The three
    gates are tried in order: exact substring containment of the lowered
    name in the lowered text; the word-overlap gate, whose two nested
    Python conditionals (nonempty significant words, then at least two
    found words with ratio at least 0.8) are flattened into one
    conjunction because the inner body is a return; and the fuzzy gate
    with floor max(threshold, 88).  The ratio comparison of found over
    significant words against 0.8 is the integer comparison of 4 times
    the significant count against 5 times the found count, and the
    confidence int(ratio times 90) is truncated rational division. -/
def advanced_search (pr : Str → Str → Nat) (client_name text : Str)
    (threshold : Nat) : MatchResult :=
  if containsSub (lowerStr client_name) (lowerStr text) then
    ⟨true, 95, MatchType.exata, extract_context client_name text 200,
      extract_client_data client_name text⟩
  else if significantWords client_name ≠ [] ∧
      2 ≤ (foundWords client_name text).length ∧
      4 * (significantWords client_name).length ≤
        5 * (foundWords client_name text).length then
    ⟨true, (foundWords client_name text).length * 90 /
        (significantWords client_name).length,
      MatchType.palavras (foundWords client_name text).length
        (significantWords client_name).length,
      extract_context ((foundWords client_name text).headD []) text 200,
      extract_client_data client_name text⟩
  else if max threshold 88 ≤ pr (lowerStr client_name) (lowerStr text) then
    ⟨true, pr (lowerStr client_name) (lowerStr text),
      MatchType.fuzzy (pr (lowerStr client_name) (lowerStr text)),
      extract_context client_name text 200,
      extract_client_data client_name text⟩
  else
    ⟨false, pr (lowerStr client_name) (lowerStr text),
      MatchType.naoEncontrado, [], ⟨[], []⟩⟩

/-- A trivial stand-in scorer used only to instantiate the external
    fuzzy-scorer parameter at concrete inputs. -/
def prZero : Str → Str → Nat := fun _ _ => 0

/-- The per-page progress values of CrawlerPDFV2.read_pdf_optimized, app.py
    line 233: int of the fraction of pages done times 30, for each page
    index below pages. -/
def pagePhase (pages : Nat) : List Nat :=
  (List.range pages).map (fun i => i * 30 / pages)

/-- The per-name progress values of CrawlerPDFV2.process_files_v2, app.py
    line 299: 30 plus int of the fraction of names done times 60. -/
def namePhase (names : Nat) : List Nat :=
  (List.range names).map (fun i => 30 + i * 60 / names)

/-- The full sequence of values written to self.progress during one
    successful cache-miss run of CrawlerPDFV2.process_files_v2: 5 after the
    Excel read starts (line 269), 10 when PDF processing starts (line 281),
    the per-page values (line 233), the per-name values (line 299), 95
    before saving (line 323) and 100 at completion (line 370). -/
def progressTrace (pages names : Nat) : List Nat :=
  5 :: 10 :: (pagePhase pages ++ (namePhase names ++ [95, 100]))

/-- Outcome of the per-name loop of process_files_v2 under a cancellation
    flag: how many result rows were accumulated, whether the run ended
    cancelled, and whether the output artifact was written. -/
structure LoopOutcome where
  resultsLen : Nat
  cancelledEnd : Bool
  producedArtifact : Bool
deriving DecidableEq, Repr

/-- Number of loop iterations completed when the cancellation flag is read
    through the oracle c: check index i happens when i names are done
    (app.py line 296); a true flag breaks the loop before processing the
    next name.  The fuel m is the number of names still to process. -/
def completedFrom (c : Nat → Bool) : Nat → Nat → Nat
  | _, 0 => 0
  | i, m + 1 => if c i then 0 else completedFrom c (i + 1) m + 1

/-- The per-name loop and its two following checks, app.py lines 295 to 320:
    iterate over n names with the cooperative cancellation checks at each
    loop head; a break, or a true flag at the post-loop check (index n),
    returns None without saving, otherwise the artifact is written. -/
def runLoopModel (c : Nat → Bool) (n : Nat) : LoopOutcome :=
  if completedFrom c 0 n < n then ⟨completedFrom c 0 n, true, false⟩
  else if c n then ⟨n, true, false⟩
  else ⟨n, false, true⟩

/-- A cancellation oracle whose flag becomes visible from check index 1 on:
    cancel issued while name 0 is being processed. -/
def lateCancel : Nat → Bool := fun i => decide (1 ≤ i)

/-- A cancellation oracle whose flag becomes visible from check index 2 on. -/
def lateCancelTwo : Nat → Bool := fun i => decide (2 ≤ i)

/-- The cached content dictionary stored per file hash by
    CrawlerPDFV2.read_pdf_optimized, app.py lines 244 to 249. -/
structure PdfContent where
  text : Str
  analysis : DocAnalysis
  total_pages : Nat
  total_chars : Nat
deriving DecidableEq, Repr

/-- CacheManager.cache, app.py line 63: a dictionary from file hashes to
    content, modelled as an association list with the newest binding in
    front. -/
abbrev Cache := List (Nat × PdfContent)

/-- CacheManager.get_cached_content, app.py lines 69 and 70. -/
def get_cached_content (cache : Cache) (h : Nat) : Option PdfContent :=
  cache.lookup h

/-- CacheManager.cache_content, app.py lines 72 and 73. -/
def cache_content (cache : Cache) (h : Nat) (content : PdfContent) : Cache :=
  (h, content) :: cache

/-- The heavy extraction stage of read_pdf_optimized, app.py lines 227 to
    249: concatenate the page texts each followed by two newlines, classify
    the result, record page and character counts. -/
def extractPdf (pages : List Str) : PdfContent :=
  let text := (pages.map (fun p => p ++ ['\n', '\n'])).flatten
  ⟨text, detect_document_type text, pages.length, text.length⟩

/-- CrawlerPDFV2.read_pdf_optimized on the uncancelled path, app.py lines
    216 to 254: serve from the cache when the hash is present (the stored
    dictionary is never falsy), otherwise extract, classify, store and
    return.  The Bool records whether the heavy extraction stage ran. -/
def read_pdf_optimized (cache : Cache) (h : Nat) (pages : List Str) :
    PdfContent × Cache × Bool :=
  match get_cached_content cache h with
  | some cached => (cached, cache, false)
  | none => (extractPdf pages, cache_content cache h (extractPdf pages), true)

/-- The fatal error kinds of process_files_v2: the Excel reader raising
    (app.py lines 213 and 214) and the PDF reader raising (lines 256 and
    257). -/
inductive PipeError where
  | excelError
  | pdfError
deriving DecidableEq, Repr

/-- The status messages process_files_v2 can end a run with: the no-clients
    message of line 274, the error message of line 383 carrying the cause,
    and the completion message of line 369. -/
inductive Status where
  | nenhumCliente
  | erro (e : PipeError)
  | concluido
deriving DecidableEq, Repr

/-- The observable end state of one run of process_files_v2: the processing
    flag, the status message, and whether this run wrote an output
    artifact (app.py lines 358 to 366). -/
structure FinalState where
  processing : Bool
  status : Status
  artifactWritten : Bool
deriving DecidableEq, Repr

/-- The summary returned by process_files_v2 on success, app.py lines 372
    to 380 (total and found counts). -/
structure Outcome where
  total : Nat
  foundCount : Nat
deriving DecidableEq, Repr

/-- CrawlerPDFV2.process_files_v2 on the uncancelled path, app.py lines 259
    to 385, with the two fallible collaborators (Excel reading and PDF
    extraction) passed as Except values.  The whole Python body runs inside
    one try block whose handler sets the error status, clears the
    processing flag and returns None (lines 382 to 385), so the model is a
    total function: no failure escapes as an exception.  An empty client
    list returns None with its own message (lines 273 to 276) before the
    PDF is read. -/
def process_files_v2 (excelRes : Except PipeError (List Str))
    (pdfRes : Except PipeError PdfContent) (threshold : Nat)
    (pr : Str → Str → Nat) : Option Outcome × FinalState :=
  match excelRes with
  | Except.error e => (none, ⟨false, Status.erro e, false⟩)
  | Except.ok clients =>
    if clients.isEmpty then (none, ⟨false, Status.nenhumCliente, false⟩)
    else
      match pdfRes with
      | Except.error e => (none, ⟨false, Status.erro e, false⟩)
      | Except.ok content =>
        let results := clients.map
          (fun c => advanced_search pr c content.text threshold)
        (some ⟨results.length, (results.filter (fun r => r.found)).length⟩,
          ⟨false, Status.concluido, true⟩)

/-- C1: for every client name, document text, threshold and fuzzy scorer,
    if the lowered name occurs verbatim as a substring of the lowered text,
    then advanced_search returns found with the fixed confidence 95 and the
    exact match type, independently of the threshold and of the fuzzy
    scorer (the fuzzy threshold is bypassed entirely). -/
theorem c1_exact_gate (pr : Str → Str → Nat) (client_name text : Str)
    (threshold : Nat)
    (h : containsSub (lowerStr client_name) (lowerStr text) = true) :
    (advanced_search pr client_name text threshold).found = true ∧
    (advanced_search pr client_name text threshold).confidence = 95 ∧
    (advanced_search pr client_name text threshold).match_type =
      MatchType.exata := by
  simp [advanced_search, h]

/-- Witness for C1 at a concrete exact-substring input. -/
theorem c1_exact_gate_witness :
    containsSub (lowerStr ("Acme".toList)) (lowerStr ("lista acme ltda".toList)) = true ∧
    ((advanced_search prZero ("Acme".toList) ("lista acme ltda".toList) 80).found = true ∧
     (advanced_search prZero ("Acme".toList) ("lista acme ltda".toList) 80).confidence = 95 ∧
     (advanced_search prZero ("Acme".toList) ("lista acme ltda".toList) 80).match_type =
       MatchType.exata) :=
  ⟨by decide, c1_exact_gate prZero ("Acme".toList) ("lista acme ltda".toList) 80 (by decide)⟩

/-- C2: with no exact substring match, if at least two significant words of
    the name are found in the text and the found-over-significant ratio is
    at least 0.8, then advanced_search returns found with confidence equal
    to the truncation of ratio times 90, for every threshold and fuzzy
    scorer. -/
theorem c2_word_overlap_gate (pr : Str → Str → Nat) (client_name text : Str)
    (threshold : Nat)
    (hex : containsSub (lowerStr client_name) (lowerStr text) = false)
    (h2 : 2 ≤ (foundWords client_name text).length)
    (hr : 4 * (significantWords client_name).length ≤
      5 * (foundWords client_name text).length) :
    (advanced_search pr client_name text threshold).found = true ∧
    (advanced_search pr client_name text threshold).confidence =
      (foundWords client_name text).length * 90 /
        (significantWords client_name).length := by
  have hle : (foundWords client_name text).length ≤
      (significantWords client_name).length := List.length_filter_le _ _
  have hsig : significantWords client_name ≠ [] := by
    intro h0
    rw [h0] at hle
    simp only [List.length_nil] at hle
    omega
  simp [advanced_search, hex, hsig, h2, hr]

/-- Witness for C2 at a concrete input: both significant words of the name
    are found in the text, the full name is not an exact substring, and the
    reported confidence is 2 times 90 over 2, which is 90. -/
theorem c2_word_overlap_gate_witness :
    containsSub (lowerStr ("Empresa XPTO Ltda".toList))
      (lowerStr ("a empresa xpto atua no ramo".toList)) = false ∧
    2 ≤ (foundWords ("Empresa XPTO Ltda".toList) ("a empresa xpto atua no ramo".toList)).length ∧
    4 * (significantWords ("Empresa XPTO Ltda".toList)).length ≤
      5 * (foundWords ("Empresa XPTO Ltda".toList) ("a empresa xpto atua no ramo".toList)).length ∧
    ((advanced_search prZero ("Empresa XPTO Ltda".toList)
        ("a empresa xpto atua no ramo".toList) 80).found = true ∧
     (advanced_search prZero ("Empresa XPTO Ltda".toList)
        ("a empresa xpto atua no ramo".toList) 80).confidence =
       (foundWords ("Empresa XPTO Ltda".toList) ("a empresa xpto atua no ramo".toList)).length * 90 /
         (significantWords ("Empresa XPTO Ltda".toList)).length) :=
  ⟨by decide, by decide, by decide,
    c2_word_overlap_gate prZero ("Empresa XPTO Ltda".toList)
      ("a empresa xpto atua no ramo".toList) 80 (by decide) (by decide) (by decide)⟩

/-- C3: when neither the exact gate nor the word-overlap gate fires, the
    matcher reports found exactly when the fuzzy similarity reaches
    max(threshold, 88); below that it returns found false with confidence
    equal to the fuzzy similarity, an empty context and empty extracted
    data. -/
theorem c3_fuzzy_gate (pr : Str → Str → Nat) (client_name text : Str)
    (threshold : Nat)
    (hex : containsSub (lowerStr client_name) (lowerStr text) = false)
    (hw : ¬(significantWords client_name ≠ [] ∧
        2 ≤ (foundWords client_name text).length ∧
        4 * (significantWords client_name).length ≤
          5 * (foundWords client_name text).length)) :
    ((advanced_search pr client_name text threshold).found = true ↔
      max threshold 88 ≤ pr (lowerStr client_name) (lowerStr text)) ∧
    (pr (lowerStr client_name) (lowerStr text) < max threshold 88 →
      (advanced_search pr client_name text threshold).found = false ∧
      (advanced_search pr client_name text threshold).confidence =
        pr (lowerStr client_name) (lowerStr text) ∧
      (advanced_search pr client_name text threshold).context = [] ∧
      (advanced_search pr client_name text threshold).extracted_data =
        ⟨[], []⟩) := by
  by_cases hfz : max threshold 88 ≤ pr (lowerStr client_name) (lowerStr text)
  · refine ⟨by simp [advanced_search, hex, hw, hfz], fun hlt => absurd hfz (by omega)⟩
  · refine ⟨by simp [advanced_search, hex, hw, hfz], fun _ => ?_⟩
    simp [advanced_search, hex, hw, hfz]

/-- Witness for C3 at a concrete input where no gate fires: the scorer
    returns 0, which is below max(80, 88), so the result is not found with
    confidence 0, empty context and empty extracted data. -/
theorem c3_fuzzy_gate_witness :
    containsSub (lowerStr ("Empresa XPTO".toList)) (lowerStr ("sem ocorrencia".toList)) = false ∧
    ¬(significantWords ("Empresa XPTO".toList) ≠ [] ∧
        2 ≤ (foundWords ("Empresa XPTO".toList) ("sem ocorrencia".toList)).length ∧
        4 * (significantWords ("Empresa XPTO".toList)).length ≤
          5 * (foundWords ("Empresa XPTO".toList) ("sem ocorrencia".toList)).length) ∧
    (((advanced_search prZero ("Empresa XPTO".toList) ("sem ocorrencia".toList) 80).found = true ↔
      max 80 88 ≤ prZero (lowerStr ("Empresa XPTO".toList)) (lowerStr ("sem ocorrencia".toList))) ∧
    (prZero (lowerStr ("Empresa XPTO".toList)) (lowerStr ("sem ocorrencia".toList)) < max 80 88 →
      (advanced_search prZero ("Empresa XPTO".toList) ("sem ocorrencia".toList) 80).found = false ∧
      (advanced_search prZero ("Empresa XPTO".toList) ("sem ocorrencia".toList) 80).confidence =
        prZero (lowerStr ("Empresa XPTO".toList)) (lowerStr ("sem ocorrencia".toList)) ∧
      (advanced_search prZero ("Empresa XPTO".toList) ("sem ocorrencia".toList) 80).context = [] ∧
      (advanced_search prZero ("Empresa XPTO".toList) ("sem ocorrencia".toList) 80).extracted_data =
        ⟨[], []⟩)) :=
  ⟨by decide, by decide,
    c3_fuzzy_gate prZero ("Empresa XPTO".toList) ("sem ocorrencia".toList) 80
      (by decide) (by decide)⟩

/-- C4 counterexample: the name sa has no significant words (its only token
    is shorter than three characters), so it normalizes to the empty
    string, yet the exact gate matches it inside the word casa and the
    matcher reports found with confidence 95 — refuting the claim that such
    a name never matches. -/
theorem c4_counterexample :
    significantWords ("sa".toList) = [] ∧
    (advanced_search prZero ("sa".toList) ("casa".toList) 100).found = true ∧
    (advanced_search prZero ("sa".toList) ("casa".toList) 100).confidence = 95 := by
  decide

/-- C4 amended: for a name with no significant words the word-overlap gate
    can never fire, so the matcher reports found exactly when the exact
    substring gate fires or the fuzzy similarity reaches max(threshold,
    88); in particular, when neither of those holds the result is not
    found. -/
theorem c4_empty_normalization (pr : Str → Str → Nat) (client_name text : Str)
    (threshold : Nat) (hsig : significantWords client_name = []) :
    (advanced_search pr client_name text threshold).found =
      (containsSub (lowerStr client_name) (lowerStr text) ||
        decide (max threshold 88 ≤ pr (lowerStr client_name) (lowerStr text))) := by
  by_cases hex : containsSub (lowerStr client_name) (lowerStr text) = true
  · simp [advanced_search, hex]
  · simp only [Bool.not_eq_true] at hex
    by_cases hfz : max threshold 88 ≤ pr (lowerStr client_name) (lowerStr text)
    · simp [advanced_search, hex, hsig, hfz]
    · simp [advanced_search, hex, hsig, hfz]

/-- Witness for the amended C4 at a concrete input with no significant
    words, no exact occurrence and a scorer below the floor: not found. -/
theorem c4_empty_normalization_witness :
    significantWords ("sa".toList) = [] ∧
    (advanced_search prZero ("sa".toList) ("xyz".toList) 90).found =
      (containsSub (lowerStr ("sa".toList)) (lowerStr ("xyz".toList)) ||
        decide (max 90 88 ≤ prZero (lowerStr ("sa".toList)) (lowerStr ("xyz".toList)))) :=
  ⟨by decide, c4_empty_normalization prZero ("sa".toList) ("xyz".toList) 90 (by decide)⟩

/-- Evaluation of advanced_search when the exact gate fires. -/
theorem adv_exact_eq (pr : Str → Str → Nat) (client_name text : Str)
    (threshold : Nat)
    (hex : containsSub (lowerStr client_name) (lowerStr text) = true) :
    advanced_search pr client_name text threshold =
      ⟨true, 95, MatchType.exata, extract_context client_name text 200,
        extract_client_data client_name text⟩ := by
  simp [advanced_search, hex]

/-- Evaluation of advanced_search when the word-overlap gate fires. -/
theorem adv_word_eq (pr : Str → Str → Nat) (client_name text : Str)
    (threshold : Nat)
    (hex : containsSub (lowerStr client_name) (lowerStr text) = false)
    (h1 : significantWords client_name ≠ [])
    (h2 : 2 ≤ (foundWords client_name text).length)
    (h3 : 4 * (significantWords client_name).length ≤
      5 * (foundWords client_name text).length) :
    advanced_search pr client_name text threshold =
      ⟨true, (foundWords client_name text).length * 90 /
          (significantWords client_name).length,
        MatchType.palavras (foundWords client_name text).length
          (significantWords client_name).length,
        extract_context ((foundWords client_name text).headD []) text 200,
        extract_client_data client_name text⟩ := by
  simp [advanced_search, hex, h1, h2, h3]

/-- Evaluation of advanced_search when only the fuzzy gate fires. -/
theorem adv_fuzzy_eq (pr : Str → Str → Nat) (client_name text : Str)
    (threshold : Nat)
    (hex : containsSub (lowerStr client_name) (lowerStr text) = false)
    (hw : ¬(significantWords client_name ≠ [] ∧
        2 ≤ (foundWords client_name text).length ∧
        4 * (significantWords client_name).length ≤
          5 * (foundWords client_name text).length))
    (hfz : max threshold 88 ≤ pr (lowerStr client_name) (lowerStr text)) :
    advanced_search pr client_name text threshold =
      ⟨true, pr (lowerStr client_name) (lowerStr text),
        MatchType.fuzzy (pr (lowerStr client_name) (lowerStr text)),
        extract_context client_name text 200,
        extract_client_data client_name text⟩ := by
  simp [advanced_search, hex, hw, hfz]

/-- Evaluation of advanced_search when no gate fires. -/
theorem adv_none_eq (pr : Str → Str → Nat) (client_name text : Str)
    (threshold : Nat)
    (hex : containsSub (lowerStr client_name) (lowerStr text) = false)
    (hw : ¬(significantWords client_name ≠ [] ∧
        2 ≤ (foundWords client_name text).length ∧
        4 * (significantWords client_name).length ≤
          5 * (foundWords client_name text).length))
    (hfz : ¬ max threshold 88 ≤ pr (lowerStr client_name) (lowerStr text)) :
    advanced_search pr client_name text threshold =
      ⟨false, pr (lowerStr client_name) (lowerStr text),
        MatchType.naoEncontrado, [], ⟨[], []⟩⟩ := by
  simp [advanced_search, hex, hw, hfz]

/-- C10: whenever the matcher reports found, the confidence lies between 72
    and 100, provided the external fuzzy scorer keeps its documented range
    of at most 100: the exact gate yields 95, the word-overlap gate yields
    a truncated ratio times 90 which lies in 72 to 90, and the fuzzy gate
    yields a similarity between 88 and 100. -/
theorem c10_confidence_bounds (pr : Str → Str → Nat) (client_name text : Str)
    (threshold : Nat)
    (hb : pr (lowerStr client_name) (lowerStr text) ≤ 100)
    (hf : (advanced_search pr client_name text threshold).found = true) :
    72 ≤ (advanced_search pr client_name text threshold).confidence ∧
    (advanced_search pr client_name text threshold).confidence ≤ 100 := by
  by_cases hex : containsSub (lowerStr client_name) (lowerStr text) = true
  · rw [adv_exact_eq pr client_name text threshold hex]
    constructor
    · show (72 : Nat) ≤ 95
      omega
    · show (95 : Nat) ≤ 100
      omega
  · simp only [Bool.not_eq_true] at hex
    by_cases hw : significantWords client_name ≠ [] ∧
        2 ≤ (foundWords client_name text).length ∧
        4 * (significantWords client_name).length ≤
          5 * (foundWords client_name text).length
    · obtain ⟨h1, h2, h3⟩ := hw
      have hpos : 0 < (significantWords client_name).length :=
        List.length_pos.mpr h1
      have hle : (foundWords client_name text).length ≤
          (significantWords client_name).length := List.length_filter_le _ _
      rw [adv_word_eq pr client_name text threshold hex h1 h2 h3]
      refine ⟨(Nat.le_div_iff_mul_le hpos).mpr (by omega), ?_⟩
      calc (foundWords client_name text).length * 90 /
            (significantWords client_name).length
          ≤ (significantWords client_name).length * 90 /
            (significantWords client_name).length :=
            Nat.div_le_div_right (Nat.mul_le_mul hle (le_refl 90))
        _ = 90 := Nat.mul_div_cancel_left 90 hpos
        _ ≤ 100 := by omega
    · by_cases hfz : max threshold 88 ≤ pr (lowerStr client_name) (lowerStr text)
      · have h88 : 88 ≤ pr (lowerStr client_name) (lowerStr text) :=
          le_trans (le_max_right threshold 88) hfz
        rw [adv_fuzzy_eq pr client_name text threshold hex hw hfz]
        constructor
        · show (72 : Nat) ≤ pr (lowerStr client_name) (lowerStr text)
          omega
        · show pr (lowerStr client_name) (lowerStr text) ≤ 100
          exact hb
      · rw [adv_none_eq pr client_name text threshold hex hw hfz] at hf
        exact absurd hf (by simp)

/-- Witness for C10 at a concrete exact-gate input. -/
theorem c10_confidence_bounds_witness :
    prZero (lowerStr ("Acme".toList)) (lowerStr ("lista acme".toList)) ≤ 100 ∧
    (advanced_search prZero ("Acme".toList) ("lista acme".toList) 80).found = true ∧
    (72 ≤ (advanced_search prZero ("Acme".toList) ("lista acme".toList) 80).confidence ∧
      (advanced_search prZero ("Acme".toList) ("lista acme".toList) 80).confidence ≤ 100) :=
  ⟨by decide, by decide,
    c10_confidence_bounds prZero ("Acme".toList) ("lista acme".toList) 80
      (by decide) (by decide)⟩

/-- C5 counterexample: a text containing one currency amount but fewer than
    two indicator phrases is classified unknown, and detect_document_type
    reports zero currency amounts even though the regex finds one over the
    full text — refuting the claim that the regex counts are reported
    independently of the classification outcome. -/
theorem c5_counterexample :
    qgcScore ("Total: R$ 10,00".toList) < 2 ∧
    countValues ("Total: R$ 10,00".toList) = 1 ∧
    (detect_document_type ("Total: R$ 10,00".toList)).values_found ≠
      countValues ("Total: R$ 10,00".toList) := by
  decide

/-- C5 amended: when at least two distinct indicator phrases occur, the
    classifier returns type qgc with confidence min(90, count times 30) and
    the regex counts of currency amounts and tax identifiers over the full
    text; otherwise it returns type unknown with confidence 0 and both
    counts hard-coded to 0, regardless of what the regexes would find. -/
theorem c5_classifier (text : Str) :
    (2 ≤ qgcScore text ∧ detect_document_type text =
        ⟨DocType.qgc, min 90 (qgcScore text * 30), countValues text,
          countCnpjs text⟩) ∨
    (qgcScore text < 2 ∧ detect_document_type text =
        ⟨DocType.unknown, 0, 0, 0⟩) := by
  by_cases h : 2 ≤ qgcScore text
  · exact Or.inl ⟨h, by simp [detect_document_type, h]⟩
  · exact Or.inr ⟨by omega, by simp [detect_document_type, h]⟩

/-- A list obtained by mapping a step-monotone function over a range is a
    nondecreasing chain. -/
theorem chain_map_range (f : Nat → Nat) (hf : ∀ i, f i ≤ f (i + 1)) :
    ∀ n, List.Chain' (fun a b : Nat => a ≤ b) ((List.range n).map f)
  | 0 => by simp
  | n + 1 => by
    rw [List.chain'_map, List.chain'_range_succ]
    intro m _
    exact hf m

/-- Membership extracted from an optional last element. -/
theorem mem_of_last {l : List Nat} {x : Nat} (hx : x ∈ l.getLast?) : x ∈ l := by
  obtain ⟨h, rfl⟩ := List.mem_getLast?_eq_getLast hx
  exact List.getLast_mem h

/-- Every per-page progress value is below 30. -/
theorem mem_pagePhase_lt (pages x : Nat) (hx : x ∈ pagePhase pages) : x < 30 := by
  simp only [pagePhase, List.mem_map, List.mem_range] at hx
  obtain ⟨i, hi, rfl⟩ := hx
  have hp : 0 < pages := by omega
  rw [Nat.div_lt_iff_lt_mul hp]
  omega

/-- Every per-name progress value lies in the band from 30 up to below 90. -/
theorem mem_namePhase_bounds (names x : Nat) (hx : x ∈ namePhase names) :
    30 ≤ x ∧ x < 90 := by
  simp only [namePhase, List.mem_map, List.mem_range] at hx
  obtain ⟨i, hi, rfl⟩ := hx
  have hp : 0 < names := by omega
  have hub : i * 60 / names < 60 := by
    rw [Nat.div_lt_iff_lt_mul hp]
    omega
  generalize i * 60 / names = d at hub ⊢
  omega

/-- The head of the tail phases of the trace is at least 30. -/
theorem head_tail_ge (names y : Nat)
    (hy : y ∈ (namePhase names ++ [95, 100]).head?) : 30 ≤ y := by
  cases names with
  | zero =>
    simp [namePhase] at hy
    omega
  | succ m =>
    rw [namePhase, List.range_succ_eq_map] at hy
    simp at hy
    omega

/-- C6 counterexample: with one page and one name the progress writes are
    5, 10, 0, 30, 95, 100 — the transition from the PDF-processing-start
    value 10 to the first per-page value 0 decreases, so the write sequence
    is not monotonically non-decreasing. -/
theorem c6_counterexample :
    ¬ List.Chain' (fun a b : Nat => a ≤ b) (progressTrace 1 1) := by
  intro h
  have e : progressTrace 1 1 = [5, 10, 0, 30, 95, 100] := by decide
  rw [e] at h
  have h1 := (List.chain'_cons.mp h).2
  have h2 := (List.chain'_cons.mp h1).1
  omega

/-- C6 amended: the progress writes fail monotonicity only at the single
    transition from the PDF-processing-start value 10 into the per-page
    band, which restarts at 0; from the first per-page update onward the
    sequence of writes is monotonically non-decreasing, for every page and
    name count. -/
theorem c6_phase_monotonicity (pages names : Nat) :
    List.Chain' (fun a b : Nat => a ≤ b) ((progressTrace pages names).drop 2) := by
  have hdrop : (progressTrace pages names).drop 2 =
      pagePhase pages ++ (namePhase names ++ [95, 100]) := rfl
  rw [hdrop, List.chain'_append]
  refine ⟨?_, ?_, ?_⟩
  · exact chain_map_range (fun i => i * 30 / pages)
      (fun i => Nat.div_le_div_right (by omega)) pages
  · rw [List.chain'_append]
    refine ⟨?_, ?_, ?_⟩
    · exact chain_map_range (fun i => 30 + i * 60 / names)
        (fun i => Nat.add_le_add_left (Nat.div_le_div_right (by omega)) 30) names
    · exact List.chain'_cons.mpr ⟨by omega, List.chain'_singleton 100⟩
    · intro x hx y hy
      have hxm := mem_namePhase_bounds names x (mem_of_last hx)
      simp at hy
      omega
  · intro x hx y hy
    have hxlt := mem_pagePhase_lt pages x (mem_of_last hx)
    have hyge := head_tail_ge names y hy
    omega

/-- The loop never completes more iterations than its fuel. -/
theorem completedFrom_le_fuel (c : Nat → Bool) : ∀ m i, completedFrom c i m ≤ m := by
  intro m
  induction m with
  | zero => intro i; simp [completedFrom]
  | succ m ih =>
    intro i
    simp only [completedFrom]
    split
    · omega
    · have := ih (i + 1)
      omega

/-- If the flag reads true at the check t steps ahead, at most t iterations
    complete. -/
theorem completedFrom_le_of_true (c : Nat → Bool) :
    ∀ m i t, c (i + t) = true → completedFrom c i m ≤ t := by
  intro m
  induction m with
  | zero => intro i t _; simp [completedFrom]
  | succ m ih =>
    intro i t ht
    simp only [completedFrom]
    split
    · omega
    · rename_i hci
      cases t with
      | zero =>
        rw [Nat.add_zero] at ht
        rw [ht] at hci
        simp at hci
      | succ u =>
        have harg : i + 1 + u = i + (u + 1) := by omega
        have := ih (i + 1) u (by rw [harg]; exact ht)
        omega

/-- C7 counterexample: with one name and cancellation issued after zero
    names were processed, observed only at the post-loop check (the flag
    reads false at check 0 and true from check 1 on), the loop accumulates
    1 = n results even though k = 0 is not n — refuting the claim's clause
    that the count is never n unless k = n; the run still ends cancelled
    and writes no artifact. -/
theorem c7_counterexample :
    lateCancel 0 = false ∧ lateCancel 1 = true ∧
    runLoopModel lateCancel 1 = ⟨1, true, false⟩ := by
  decide

/-- C7 amended: if cancellation is issued after k of n names have been
    processed — the flag reads false at every check before index k and true
    at every check after index k — then the run stops with at most k plus
    one accumulated results (a count that can reach n when k is n minus
    one), ends cancelled, and writes no output artifact. -/
theorem c7_cooperative_cancellation (c : Nat → Bool) (n k : Nat)
    (hk : k < n)
    (hbefore : ∀ i, i < k → c i = false)
    (hafter : ∀ i, k < i → c i = true) :
    (runLoopModel c n).resultsLen ≤ k + 1 ∧
    (runLoopModel c n).cancelledEnd = true ∧
    (runLoopModel c n).producedArtifact = false := by
  have hle : completedFrom c 0 n ≤ k + 1 :=
    completedFrom_le_of_true c n 0 (k + 1)
      (by simpa using hafter (k + 1) (by omega))
  have hcn : c n = true := hafter n hk
  by_cases hlt : completedFrom c 0 n < n
  · have hr : runLoopModel c n = ⟨completedFrom c 0 n, true, false⟩ := by
      simp [runLoopModel, hlt]
    rw [hr]
    exact ⟨hle, rfl, rfl⟩
  · have hr : runLoopModel c n = ⟨n, true, false⟩ := by
      simp [runLoopModel, hlt, hcn]
    rw [hr]
    refine ⟨?_, rfl, rfl⟩
    have hfuel := completedFrom_le_fuel c n 0
    show n ≤ k + 1
    omega

/-- Witness for the amended C7: three names, cancellation issued after one
    name was processed (the flag reads true from check index 2 on). -/
theorem c7_cooperative_cancellation_witness :
    (runLoopModel lateCancelTwo 3).resultsLen ≤ 2 ∧
    (runLoopModel lateCancelTwo 3).cancelledEnd = true ∧
    (runLoopModel lateCancelTwo 3).producedArtifact = false :=
  c7_cooperative_cancellation lateCancelTwo 3 1 (by omega)
    (fun i hi => by simp only [lateCancelTwo, decide_eq_false_iff_not]; omega)
    (fun i hi => by simp only [lateCancelTwo, decide_eq_true_eq]; omega)

/-- C8: the content cache satisfies the round-trip law — get after put with
    the same content-hash key returns exactly the stored entry — and two
    successive reads of a document with the same content hash run the heavy
    extraction and classification stage exactly once: on a cold cache the
    first read extracts and stores, and the second read is served from the
    cache without extracting and returns the same content. -/
theorem c8_cache_round_trip :
    (∀ (cache : Cache) (h : Nat) (v : PdfContent),
      get_cached_content (cache_content cache h v) h = some v) ∧
    (∀ (cache : Cache) (h : Nat) (pages : List Str),
      get_cached_content cache h = none →
      (read_pdf_optimized cache h pages).2.2 = true ∧
      (read_pdf_optimized (read_pdf_optimized cache h pages).2.1 h pages).2.2 = false ∧
      (read_pdf_optimized (read_pdf_optimized cache h pages).2.1 h pages).1 =
        (read_pdf_optimized cache h pages).1) := by
  constructor
  · intro cache h v
    simp [get_cached_content, cache_content, List.lookup]
  · intro cache h pages hmiss
    have h1 : read_pdf_optimized cache h pages =
        (extractPdf pages, cache_content cache h (extractPdf pages), true) := by
      simp [read_pdf_optimized, hmiss]
    have h2 : get_cached_content (cache_content cache h (extractPdf pages)) h =
        some (extractPdf pages) := by
      simp [get_cached_content, cache_content, List.lookup]
    rw [h1]
    simp [read_pdf_optimized, h2]

/-- Witness for C8 on the empty cache with a one-page document. -/
theorem c8_cache_round_trip_witness :
    get_cached_content ([] : Cache) 7 = none ∧
    ((read_pdf_optimized ([] : Cache) 7 ["qgc".toList]).2.2 = true ∧
     (read_pdf_optimized (read_pdf_optimized ([] : Cache) 7 ["qgc".toList]).2.1
        7 ["qgc".toList]).2.2 = false ∧
     (read_pdf_optimized (read_pdf_optimized ([] : Cache) 7 ["qgc".toList]).2.1
        7 ["qgc".toList]).1 =
       (read_pdf_optimized ([] : Cache) 7 ["qgc".toList]).1) :=
  ⟨by decide, c8_cache_round_trip.2 ([] : Cache) 7 ["qgc".toList] (by decide)⟩

/-- C9: fatal input and extraction failures end the run with None, the
    processing flag cleared, a status message carrying the cause, and no
    output artifact written: a raising Excel reader, an empty client list,
    and a raising PDF extraction each do so.  The model is a total
    function because the Python body runs inside one try block whose
    handler converts every exception into this status-reporting return, so
    no failure crosses the polling boundary as an exception. -/
theorem c9_fatal_errors (threshold : Nat) (pr : Str → Str → Nat) :
    (∀ (e : PipeError) (pdfRes : Except PipeError PdfContent),
      process_files_v2 (Except.error e) pdfRes threshold pr =
        (none, ⟨false, Status.erro e, false⟩)) ∧
    (∀ pdfRes : Except PipeError PdfContent,
      process_files_v2 (Except.ok []) pdfRes threshold pr =
        (none, ⟨false, Status.nenhumCliente, false⟩)) ∧
    (∀ (e : PipeError) (cl : Str) (rest : List Str),
      process_files_v2 (Except.ok (cl :: rest)) (Except.error e) threshold pr =
        (none, ⟨false, Status.erro e, false⟩)) :=
  ⟨fun _ _ => rfl, fun _ => rfl, fun _ _ _ => rfl⟩
